import Mathlib

/-!
Shallow embedding of the Music2 audio-player front end.

* `src/src/App.tsx` — the root UI component: playback state (`isPlaying`,
  `currentTime`, `duration`, `volume`, `isFullscreen`, `audioError`,
  `isLoading`) and the event handlers `togglePlay`, `handleTimeUpdate`,
  `handleLoadedMetadata`, `handleEnded`, `handleLoadStart`, `handleError`,
  `handleVolumeChange`, `toggleFullscreen`, `handleProgressBarClick`,
  `formatTime`, and the error-popup dismiss button.
* `src/src/components/ThreeBackground.tsx` — the visual-effects module:
  `analyzeAudio` (frequency-band averaging), the `animate` render loop of
  `useObsessionScene` guarded by `pausedRef`, and its cleanup function.

Numbers are modelled as `ℚ` (exact arithmetic in place of IEEE doubles); a
reported media duration of NaN is modelled as `none : Option ℚ`; the JS
truthiness test on the `string | null` error state is modelled explicitly.
-/

/-- The slice of the native `HTMLAudioElement` the component reads and
writes: `paused`, `currentTime`, `duration` (`none` models NaN, i.e. no
metadata yet), `volume`. -/
structure AudioEl where
  paused : Bool
  currentTime : ℚ
  duration : Option ℚ
  volume : ℚ
deriving DecidableEq, Repr

/-- The React display state of `App` (`src/src/App.tsx`, `useState` hooks),
together with the (optional) audio element behind `audioRef`. -/
structure AppState where
  isPlaying : Bool
  currentTime : ℚ
  duration : ℚ
  volume : ℚ
  isFullscreen : Bool
  audioError : Option String
  isLoading : Bool
  audio : Option AudioEl
deriving DecidableEq, Repr

/-- The two media controls `togglePlay` can invoke on the element. -/
inductive MediaCall where
  | play
  | pause
deriving DecidableEq, Repr

/-- Outcome of the `audio.play()` promise: it either resolves (playback
starts) or rejects with an error message (e.g. autoplay policy). -/
inductive PlayOutcome where
  | resolves
  | rejects (msg : String)
deriving DecidableEq, Repr

/-- JS truthiness of the `string | null` value held in `audioError`:
`null` and the empty string are falsy, every other string is truthy. -/
def truthy : Option String → Bool
  | none => false
  | some m => m != ""

/-- `togglePlay` (`src/src/App.tsx` lines 331–343).  Returns the new state
together with the list of media controls invoked.

```
if (!audioRef.current || audioError) return;
if (isPlaying) { audioRef.current.pause(); }
else { audioRef.current.play().catch((e) => setAudioError(`Playback failed: ${e.message}`)); }
setIsPlaying(!isPlaying);
```

A resolving `play()` starts playback (`paused := false`); a rejecting one
leaves the element untouched and the catch handler records the error. -/
def togglePlay (s : AppState) (o : PlayOutcome) : AppState × List MediaCall :=
  match s.audio with
  | none => (s, [])
  | some a =>
    if truthy s.audioError then (s, [])
    else if s.isPlaying then
      ({ s with isPlaying := false, audio := some { a with paused := true } },
       [MediaCall.pause])
    else
      match o with
      | PlayOutcome.resolves =>
        ({ s with isPlaying := true, audio := some { a with paused := false } },
         [MediaCall.play])
      | PlayOutcome.rejects msg =>
        ({ s with isPlaying := true,
                  audioError := some ("Playback failed: " ++ msg) },
         [MediaCall.play])

/-- C1 sanity check values. -/
def exampleAudio : AudioEl :=
  { paused := true, currentTime := 0, duration := none, volume := 1 }

/-- Initial component state: all `useState` initial values
(`src/src/App.tsx` lines 312–318), with the audio element mounted. -/
def initState : AppState :=
  { isPlaying := false, currentTime := 0, duration := 0, volume := 1,
    isFullscreen := false, audioError := none, isLoading := false,
    audio := some exampleAudio }

/-- `handleTimeUpdate` (`src/src/App.tsx` lines 346–350): mirror the
element's `currentTime` into display state. -/
def handleTimeUpdate (s : AppState) : AppState :=
  match s.audio with
  | none => s
  | some a => { s with currentTime := a.currentTime }

/-- `handleLoadedMetadata` (`src/src/App.tsx` lines 353–359):

```
if (audioRef.current && !Number.isNaN(audioRef.current.duration)) {
  setDuration(audioRef.current.duration);
  setIsLoading(false);
  setAudioError(null);
}
```

A NaN duration is `none`, so the guard fails and nothing is assigned. -/
def handleLoadedMetadata (s : AppState) : AppState :=
  match s.audio with
  | none => s
  | some a =>
    match a.duration with
    | none => s
    | some d => { s with duration := d, isLoading := false, audioError := none }

/-- `handleEnded` (`src/src/App.tsx` lines 362–368): clear the play flag,
reset the displayed time and rewind the element. -/
def handleEnded (s : AppState) : AppState :=
  { s with isPlaying := false, currentTime := 0,
           audio := s.audio.map (fun a => { a with currentTime := 0 }) }

/-- `handleLoadStart` (`src/src/App.tsx` lines 371–373). -/
def handleLoadStart (s : AppState) : AppState :=
  { s with isLoading := true }

/-- The four `MediaError` code constants of the web platform. -/
def MEDIA_ERR_ABORTED : ℕ := 1

/-- `MediaError.MEDIA_ERR_NETWORK`. -/
def MEDIA_ERR_NETWORK : ℕ := 2

/-- `MediaError.MEDIA_ERR_DECODE`. -/
def MEDIA_ERR_DECODE : ℕ := 3

/-- `MediaError.MEDIA_ERR_SRC_NOT_SUPPORTED`. -/
def MEDIA_ERR_SRC_NOT_SUPPORTED : ℕ := 4

/-- The message computed by `handleError` (`src/src/App.tsx` lines
376–400) from `e.currentTarget.error`: `errorMsg` starts as
"Unknown error" and the `switch` overwrites it for the four known codes;
an absent error object or an unknown code keeps "Unknown error". -/
def mediaErrorMessage : Option ℕ → String
  | none => "Unknown error"
  | some c =>
    if c = MEDIA_ERR_ABORTED then "Audio loading aborted"
    else if c = MEDIA_ERR_NETWORK then "Network error - check file path"
    else if c = MEDIA_ERR_DECODE then "Audio format not supported"
    else if c = MEDIA_ERR_SRC_NOT_SUPPORTED then "Audio source not supported"
    else "Unknown error"

/-- `handleError` (`src/src/App.tsx` lines 376–400): surface the element's
error code (passed as the event target's `error?.code`) as a message and
clear the loading flag. -/
def handleError (s : AppState) (code : Option ℕ) : AppState :=
  { s with audioError := some (mediaErrorMessage code), isLoading := false }

/-- `handleVolumeChange` (`src/src/App.tsx` lines 403–409) with the parsed
slider value. -/
def handleVolumeChange (s : AppState) (v : ℚ) : AppState :=
  { s with volume := v,
           audio := s.audio.map (fun a => { a with volume := v }) }

/-- `toggleFullscreen` (`src/src/App.tsx` lines 412–426), display-state
part: flip the flag (the fullscreen request itself is fire-and-forget). -/
def toggleFullscreen (s : AppState) : AppState :=
  { s with isFullscreen := !s.isFullscreen }

/-- `handleProgressBarClick` (`src/src/App.tsx` lines 429–438):

```
if (!audioRef.current || duration === 0) return;
const percent = (e.clientX - rect.left) / rect.width;
const newTime = percent * duration;
audioRef.current.currentTime = newTime;
setCurrentTime(newTime);
```
-/
def handleProgressBarClick (s : AppState) (clientX rectLeft rectWidth : ℚ) :
    AppState :=
  match s.audio with
  | none => s
  | some a =>
    if s.duration = 0 then s
    else
      let percent := (clientX - rectLeft) / rectWidth
      let newTime := percent * s.duration
      { s with currentTime := newTime,
               audio := some { a with currentTime := newTime } }

/-- The error popup's dismiss button (`src/src/App.tsx` line 505):
`onClick={() => setAudioError(null)}`. -/
def dismissError (s : AppState) : AppState :=
  { s with audioError := none }

/-- The events the component reacts to.  `timeUpdate` carries the element's
current position (the platform advances it during playback), `mediaError`
carries the event target's error code, `toggle` carries the outcome of the
`play()` promise. -/
inductive Ev where
  | toggle (o : PlayOutcome)
  | timeUpdate (t : ℚ)
  | loadedMetadata
  | ended
  | loadStart
  | mediaError (code : Option ℕ)
  | setVolume (v : ℚ)
  | progressClick (clientX rectLeft rectWidth : ℚ)
  | dismiss
  | fullscreen

/-- One step of the component: the platform-side effect of the event on the
element (playback position for `timeUpdate`, pausing at `ended`) followed
by the corresponding handler. -/
def step (s : AppState) (e : Ev) : AppState :=
  match e with
  | Ev.toggle o => (togglePlay s o).1
  | Ev.timeUpdate t =>
      handleTimeUpdate
        { s with audio := s.audio.map (fun a => { a with currentTime := t }) }
  | Ev.loadedMetadata => handleLoadedMetadata s
  | Ev.ended =>
      handleEnded
        { s with audio := s.audio.map (fun a => { a with paused := true }) }
  | Ev.loadStart => handleLoadStart s
  | Ev.mediaError code => handleError s code
  | Ev.setVolume v => handleVolumeChange s v
  | Ev.progressClick x l w => handleProgressBarClick s x l w
  | Ev.dismiss => dismissError s
  | Ev.fullscreen => toggleFullscreen s

/-- States of the UI reachable from the initial mount by event steps. -/
inductive Reachable : AppState → Prop
  | init : Reachable initState
  | step {s : AppState} (hs : Reachable s) (e : Ev) : Reachable (step s e)

/-- Every stored error message is either absent or a nonempty string (the
empty string is JS-falsy, so this is what makes the `audioError` guard in
`togglePlay` equivalent to a null test). -/
def ErrOk (s : AppState) : Prop :=
  ∀ m : String, s.audioError = some m → m ≠ ""

/-- JS truncation toward zero, as performed by the `%` operator on the
quotient. -/
def jsTrunc (q : ℚ) : ℤ :=
  if 0 ≤ q then ⌊q⌋ else ⌈q⌉

/-- The JS remainder operator `a % b`: `a - b * trunc (a / b)`. -/
def jsMod (a b : ℚ) : ℚ :=
  a - b * (jsTrunc (a / b) : ℚ)

/-- `String.prototype.padStart(2, '0')`: left-pad with zeros to length at
least 2. -/
def padStart2 (s : String) : String :=
  if 2 ≤ s.length then s
  else String.mk (List.replicate (2 - s.length) '0') ++ s

/-- `formatTime` (`src/src/App.tsx` lines 323–328):

```
const minutes = Math.floor(time / 60);
const seconds = Math.floor(time % 60);
const ms = Math.floor((time % 1) * 100);
return `${minutes..padStart(2,'0')}:${seconds..padStart(2,'0')}:${ms..padStart(2,'0')}`;
```
-/
def formatTime (time : ℚ) : String :=
  let minutes : ℤ := ⌊time / 60⌋
  let seconds : ℤ := ⌊jsMod time 60⌋
  let ms : ℤ := ⌊jsMod time 1 * 100⌋
  padStart2 (toString minutes) ++ ":" ++ padStart2 (toString seconds) ++ ":"
    ++ padStart2 (toString ms)

/-- The three energy values computed by `analyzeAudio`. -/
structure AudioData where
  bass : ℚ
  mid : ℚ
  treble : ℚ
deriving DecidableEq, Repr

/-- `analyzeAudio` (`src/src/components/ThreeBackground.tsx` lines
281–289): band sums of the byte-valued frequency snapshot.

```
const bass = dataArray.slice(0, 8).reduce((a, b) => a + b, 0) / (8 * 255);
const mid = dataArray.slice(8, 40).reduce((a, b) => a + b, 0) / (32 * 255);
const treble = dataArray.slice(40, 100).reduce((a, b) => a + b, 0) / (60 * 255);
```
-/
def analyzeAudio (dataArray : List ℕ) : AudioData :=
  { bass := ((dataArray.take 8).sum : ℚ) / (8 * 255)
    mid := (((dataArray.drop 8).take 32).sum : ℚ) / (32 * 255)
    treble := (((dataArray.drop 40).take 60).sum : ℚ) / (60 * 255) }

/-- The bass computation of the `animate` loop embedded in the App variant
(`src/src/App.tsx` lines 202–210): sum of bins 0–14, then `/ 15 / 255`. -/
def appBass (dataArray : List ℕ) : ℚ :=
  (((dataArray.take 15).sum : ℚ) / 15) / 255

/-- Arithmetic mean of a list of byte values, as a rational. -/
def listMean (l : List ℕ) : ℚ :=
  (l.sum : ℚ) / (l.length : ℚ)

/-- State of the `useObsessionScene` render loop
(`src/src/components/ThreeBackground.tsx`): the `pausedRef` flag and
whether an animation-frame request is currently scheduled (`rafRef`
holds a live request id). -/
structure SceneState where
  paused : Bool
  pending : Bool
deriving DecidableEq, Repr

/-- One invocation of the `animate` callback (lines 667–669): the pending
request that fired is consumed; if `pausedRef` is set the callback returns
at once, otherwise it immediately re-queues itself via
`requestAnimationFrame`.  The boolean records whether a frame was
requested. -/
def animateStep (s : SceneState) : SceneState × Bool :=
  if s.paused then ({ s with pending := false }, false)
  else ({ s with pending := true }, true)

/-- The cleanup function returned by the scene effect (lines 810–813):
`pausedRef.current = true` and `cancelAnimationFrame(rafRef.current)`,
which removes any scheduled request. -/
def cleanup (s : SceneState) : SceneState :=
  { s with paused := true, pending := false }

/-- Total number of animation frames requested over `n` further
invocations of the `animate` callback starting from `s`. -/
def framesRequested (s : SceneState) : ℕ → ℕ
  | 0 => 0
  | n + 1 => (if (animateStep s).2 then 1 else 0) + framesRequested (animateStep s).1 n

/-- C1: with the element present and no error, `togglePlay` flips the flag
and invokes exactly the matching media control: `pause` when the flag was
true, `play` when it was false; in both cases exactly one control. -/
theorem togglePlay_invokes_one_control (s : AppState) (a : AudioEl)
    (o : PlayOutcome) (ha : s.audio = some a) (he : s.audioError = none) :
    (s.isPlaying = true →
      (togglePlay s o).2 = [MediaCall.pause] ∧
      (togglePlay s o).1.isPlaying = false) ∧
    (s.isPlaying = false →
      (togglePlay s o).2 = [MediaCall.play] ∧
      (togglePlay s o).1.isPlaying = true) ∧
    (togglePlay s o).2.length = 1 := by
  have ht : truthy s.audioError = false := by rw [he]; rfl
  rcases o with _ | msg <;>
    simp [togglePlay, ha, ht] <;>
    cases hp : s.isPlaying <;> simp

/-- C1 witness: at the initial state (flag false, no error) with a resolving
`play()`, exactly the `play` control is invoked and the flag becomes true. -/
theorem togglePlay_invokes_one_control_witness :
    (togglePlay initState PlayOutcome.resolves).2 = [MediaCall.play] ∧
    (togglePlay initState PlayOutcome.resolves).1.isPlaying = true :=
  (togglePlay_invokes_one_control initState exampleAudio PlayOutcome.resolves
    rfl rfl).2.1 rfl

/-- C2: a click at fraction `f` of the progress bar's width (client x
coordinate `l + f * w` on a bar spanning `[l, l + w)`, `w > 0`), with
metadata loaded (`duration > 0`) and the element present, seeks both the
element and the displayed time to `f * duration`. -/
theorem handleProgressBarClick_seeks_fraction (s : AppState) (a : AudioEl)
    (f l w : ℚ) (ha : s.audio = some a) (hd : 0 < s.duration) (hw : 0 < w) :
    (handleProgressBarClick s (l + f * w) l w).currentTime = f * s.duration ∧
    (handleProgressBarClick s (l + f * w) l w).audio =
      some { a with currentTime := f * s.duration } := by
  have hd0 : ¬ s.duration = 0 := by exact ne_of_gt hd
  have hw0 : w ≠ 0 := ne_of_gt hw
  have hf : f * w / w = f := by
    rw [mul_div_assoc, div_self hw0, mul_one]
  constructor <;> simp [handleProgressBarClick, ha, hd0, hf]

/-- C2 witness: on a bar from x = 10 of width 200, a click at x = 110
(the midpoint, `f = 1/2`) with duration 100 seeks to 50. -/
theorem handleProgressBarClick_seeks_fraction_witness :
    (handleProgressBarClick { initState with duration := 100 }
        (10 + (1 / 2) * 200) 10 200).currentTime = (1 / 2) * 100 :=
  (handleProgressBarClick_seeks_fraction { initState with duration := 100 }
    exampleAudio (1 / 2) 10 200 rfl (by norm_num) (by norm_num)).1

/-- C10: with the element absent or the stored duration still 0,
`handleProgressBarClick` returns the state unchanged for every click
position. -/
theorem handleProgressBarClick_noop (s : AppState) (x l w : ℚ)
    (h : s.audio = none ∨ s.duration = 0) :
    handleProgressBarClick s x l w = s := by
  rcases h with h | h
  · simp [handleProgressBarClick, h]
  · cases ha : s.audio with
    | none => simp [handleProgressBarClick, ha]
    | some a => simp [handleProgressBarClick, ha, h]

/-- C10 witness: at the initial state (duration 0) a click is a no-op. -/
theorem handleProgressBarClick_noop_witness :
    handleProgressBarClick initState 110 10 200 = initState :=
  handleProgressBarClick_noop initState 110 10 200 (Or.inr rfl)

/-- C3: when the element reports a NaN duration (`none`),
`handleLoadedMetadata` leaves the state — in particular the stored
duration — unchanged, and conversely the stored duration only ever
changes when a non-NaN duration was reported. -/
theorem handleLoadedMetadata_nan_frame (s : AppState) :
    (∀ a : AudioEl, s.audio = some a → a.duration = none →
      handleLoadedMetadata s = s) ∧
    ((handleLoadedMetadata s).duration ≠ s.duration →
      ∃ a d, s.audio = some a ∧ a.duration = some d) := by
  constructor
  · intro a ha hd
    simp [handleLoadedMetadata, ha, hd]
  · intro h
    cases ha : s.audio with
    | none => simp [handleLoadedMetadata, ha] at h
    | some a =>
      cases hd : a.duration with
      | none => simp [handleLoadedMetadata, ha, hd] at h
      | some d => exact ⟨a, d, rfl, hd⟩

/-- C3 witness: at the initial state, whose element reports NaN, the
`loadedmetadata` handler changes nothing. -/
theorem handleLoadedMetadata_nan_frame_witness :
    handleLoadedMetadata initState = initState :=
  (handleLoadedMetadata_nan_frame initState).1 exampleAudio rfl rfl

/-- Appending to the fixed prefix "Playback failed: " never yields the
empty string. -/
theorem playbackMsg_ne_empty (m : String) : "Playback failed: " ++ m ≠ "" := by
  intro h
  have hd := congrArg String.data h
  rw [String.data_append] at hd
  exact absurd (List.append_eq_nil.mp hd).1 (by decide)

/-- C4: `handleError` surfaces the four platform error codes as their four
fixed messages, any other or absent code as "Unknown error", and clears
the loading flag; a rejected `play()` promise in `togglePlay` sets the
error message to the rejection text; and the dismiss button resets the
message to null. -/
theorem handleError_message_table (s : AppState) (a : AudioEl) (c : ℕ)
    (msg : String) (ha : s.audio = some a) (he : s.audioError = none)
    (hp : s.isPlaying = false) :
    (handleError s (some MEDIA_ERR_ABORTED)).audioError
        = some "Audio loading aborted" ∧
    (handleError s (some MEDIA_ERR_NETWORK)).audioError
        = some "Network error - check file path" ∧
    (handleError s (some MEDIA_ERR_DECODE)).audioError
        = some "Audio format not supported" ∧
    (handleError s (some MEDIA_ERR_SRC_NOT_SUPPORTED)).audioError
        = some "Audio source not supported" ∧
    (c ≠ MEDIA_ERR_ABORTED → c ≠ MEDIA_ERR_NETWORK → c ≠ MEDIA_ERR_DECODE →
      c ≠ MEDIA_ERR_SRC_NOT_SUPPORTED →
      (handleError s (some c)).audioError = some "Unknown error") ∧
    (handleError s none).audioError = some "Unknown error" ∧
    (∀ code : Option ℕ, (handleError s code).isLoading = false) ∧
    (togglePlay s (PlayOutcome.rejects msg)).1.audioError
        = some ("Playback failed: " ++ msg) ∧
    (∀ t : AppState, (dismissError t).audioError = none) := by
  have ht : truthy s.audioError = false := by rw [he]; rfl
  refine ⟨rfl, rfl, rfl, rfl, ?_, rfl, fun code => rfl, ?_, fun t => rfl⟩
  · intro h1 h2 h3 h4
    simp [handleError, mediaErrorMessage, MEDIA_ERR_ABORTED, MEDIA_ERR_NETWORK,
      MEDIA_ERR_DECODE, MEDIA_ERR_SRC_NOT_SUPPORTED] at *
    simp [h1, h2, h3, h4]
  · simp [togglePlay, ha, ht, hp]

/-- C4 witness: at the initial state, error code 5 yields "Unknown error". -/
theorem handleError_message_table_witness :
    (handleError initState (some 5)).audioError = some "Unknown error" :=
  ((handleError_message_table initState exampleAudio 5 "x" rfl rfl
    rfl).2.2.2.2.1) (by decide) (by decide) (by decide) (by decide)

/-- A paused scene never requests a frame, however often the callback is
invoked. -/
theorem framesRequested_of_paused (s : SceneState) (hp : s.paused = true) :
    ∀ n : ℕ, framesRequested s n = 0 := by
  intro n
  induction n generalizing s with
  | zero => rfl
  | succ n ih =>
    have hstep : animateStep s = ({ s with pending := false }, false) := by
      simp [animateStep, hp]
    rw [framesRequested, hstep]
    simpa using ih { s with pending := false } hp

/-- C8: after the scene effect's cleanup runs, the pending animation-frame
request is cancelled and — because cleanup set the paused flag — any
number of further invocations of the `animate` callback requests zero
frames: the render loop never runs again. -/
theorem no_frames_after_cleanup (s : SceneState) (n : ℕ) :
    (cleanup s).pending = false ∧ (cleanup s).paused = true ∧
    framesRequested (cleanup s) n = 0 :=
  ⟨rfl, rfl, framesRequested_of_paused (cleanup s) rfl n⟩

/-- A list of naturals each at most `B` sums to at most `length * B`. -/
theorem list_sum_le_length_mul (l : List ℕ) (B : ℕ) (h : ∀ x ∈ l, x ≤ B) :
    l.sum ≤ l.length * B := by
  induction l with
  | nil => simp
  | cons a t ih =>
    have ha : a ≤ B := h a (by simp)
    have ht : t.sum ≤ t.length * B := ih (fun x hx => h x (by simp [hx]))
    calc a + t.sum ≤ B + t.length * B := Nat.add_le_add ha ht
      _ = (t.length + 1) * B := by ring

/-- A band of `k` bins drawn from a 128-bin byte snapshot, summed and
divided by `k * 255`, is the band's arithmetic mean divided by 255 and
lies in `[0, 1]`. -/
theorem band_energy_bounds (band : List ℕ) (k : ℕ) (hk : 0 < k)
    (hlen : band.length = k) (hb : ∀ x ∈ band, x ≤ 255) :
    (band.sum : ℚ) / (k * 255) = listMean band / 255 ∧
    0 ≤ (band.sum : ℚ) / (k * 255) ∧ (band.sum : ℚ) / (k * 255) ≤ 1 := by
  have hk0 : (k : ℚ) ≠ 0 := by exact_mod_cast Nat.pos_iff_ne_zero.mp hk
  have hkpos : (0 : ℚ) < k := by exact_mod_cast hk
  have hsum : (band.sum : ℚ) ≤ k * 255 := by
    have := list_sum_le_length_mul band 255 hb
    rw [hlen] at this
    exact_mod_cast this
  have hden : (0 : ℚ) < k * 255 := by positivity
  refine ⟨?_, ?_, ?_⟩
  · rw [listMean, hlen, div_div]
  · exact div_nonneg (by positivity) (le_of_lt hden)
  · exact (div_le_one hden).mpr hsum

/-- C7: for a byte-valued 128-bin frequency snapshot, each energy of
`analyzeAudio` is the arithmetic mean of its fixed contiguous band of bins
divided by 255 (bass: bins 0–7, mid: bins 8–39, treble: bins 40–99), the
App-variant bass is the mean of bins 0–14 over 255, and every energy value
lies in `[0, 1]`. -/
theorem energy_band_means (data : List ℕ) (hlen : data.length = 128)
    (hb : ∀ x ∈ data, x ≤ 255) :
    ((analyzeAudio data).bass = listMean (data.take 8) / 255 ∧
     0 ≤ (analyzeAudio data).bass ∧ (analyzeAudio data).bass ≤ 1) ∧
    ((analyzeAudio data).mid = listMean ((data.drop 8).take 32) / 255 ∧
     0 ≤ (analyzeAudio data).mid ∧ (analyzeAudio data).mid ≤ 1) ∧
    ((analyzeAudio data).treble = listMean ((data.drop 40).take 60) / 255 ∧
     0 ≤ (analyzeAudio data).treble ∧ (analyzeAudio data).treble ≤ 1) ∧
    (appBass data = listMean (data.take 15) / 255 ∧
     0 ≤ appBass data ∧ appBass data ≤ 1) := by
  have h8 := band_energy_bounds (data.take 8) 8 (by norm_num)
    (by simp [hlen]) (fun x hx => hb x (List.mem_of_mem_take hx))
  have h32 := band_energy_bounds ((data.drop 8).take 32) 32 (by norm_num)
    (by simp [hlen])
    (fun x hx => hb x (List.mem_of_mem_drop (List.mem_of_mem_take hx)))
  have h60 := band_energy_bounds ((data.drop 40).take 60) 60 (by norm_num)
    (by simp [hlen])
    (fun x hx => hb x (List.mem_of_mem_drop (List.mem_of_mem_take hx)))
  have h15 := band_energy_bounds (data.take 15) 15 (by norm_num)
    (by simp [hlen]) (fun x hx => hb x (List.mem_of_mem_take hx))
  have happ : appBass data = ((data.take 15).sum : ℚ) / (15 * 255) := by
    rw [appBass, div_div]
  refine ⟨⟨?_, ?_, ?_⟩, ⟨?_, ?_, ?_⟩, ⟨?_, ?_, ?_⟩, ⟨?_, ?_, ?_⟩⟩
  · simpa [analyzeAudio] using h8.1
  · simpa [analyzeAudio] using h8.2.1
  · simpa [analyzeAudio] using h8.2.2
  · simpa [analyzeAudio] using h32.1
  · simpa [analyzeAudio] using h32.2.1
  · simpa [analyzeAudio] using h32.2.2
  · simpa [analyzeAudio] using h60.1
  · simpa [analyzeAudio] using h60.2.1
  · simpa [analyzeAudio] using h60.2.2
  · rw [happ]; simpa using h15.1
  · rw [happ]; simpa using h15.2.1
  · rw [happ]; simpa using h15.2.2

/-- C7 witness: the all-255 snapshot has every energy equal to 1, in
particular within bounds. -/
theorem energy_band_means_witness :
    (analyzeAudio (List.replicate 128 255)).bass ≤ 1 ∧
    appBass (List.replicate 128 255) ≤ 1 :=
  ⟨(energy_band_means (List.replicate 128 255) (by simp)
      (fun x hx => le_of_eq (List.eq_of_mem_replicate hx))).1.2.2,
   (energy_band_means (List.replicate 128 255) (by simp)
      (fun x hx => le_of_eq (List.eq_of_mem_replicate hx))).2.2.2.2.2⟩

/-- On a non-negative dividend and positive divisor the JS `%` operator is
the scaled fractional part of the quotient. -/
theorem jsMod_eq_fract (t b : ℚ) (ht : 0 ≤ t) (hb : 0 < b) :
    jsMod t b = b * Int.fract (t / b) := by
  unfold jsMod jsTrunc
  rw [if_pos (div_nonneg ht hb.le), Int.fract]
  have hbt : b * (t / b) = t := by field_simp
  rw [mul_sub, hbt]

/-- The JS remainder of a non-negative value by a positive modulus lies in
`[0, b)`. -/
theorem jsMod_bounds (t b : ℚ) (ht : 0 ≤ t) (hb : 0 < b) :
    0 ≤ jsMod t b ∧ jsMod t b < b := by
  rw [jsMod_eq_fract t b ht hb]
  constructor
  · exact mul_nonneg hb.le (Int.fract_nonneg _)
  · calc b * Int.fract (t / b) < b * 1 :=
        (mul_lt_mul_left hb).mpr (Int.fract_lt_one _)
      _ = b := mul_one b

/-- C9: for non-negative `t`, `formatTime t` is
`pad2 MM ++ ":" ++ pad2 SS ++ ":" ++ pad2 CC` where `MM = ⌊t / 60⌋`,
`SS = ⌊t % 60⌋` with `t % 60 = t - 60 * ⌊t / 60⌋`, and
`CC = ⌊(t % 1) * 100⌋` with `t % 1 = t - ⌊t⌋` — hundredths of a second —
all three fields non-negative, with `SS ≤ 59` and `CC ≤ 99`. -/
theorem formatTime_shape (t : ℚ) (h : 0 ≤ t) :
    jsMod t 60 = t - 60 * (⌊t / 60⌋ : ℤ) ∧
    jsMod t 1 = t - (⌊t⌋ : ℤ) ∧
    0 ≤ ⌊t / 60⌋ ∧
    (0 ≤ ⌊jsMod t 60⌋ ∧ ⌊jsMod t 60⌋ ≤ 59) ∧
    (0 ≤ ⌊jsMod t 1 * 100⌋ ∧ ⌊jsMod t 1 * 100⌋ ≤ 99) ∧
    formatTime t =
      padStart2 (toString ⌊t / 60⌋) ++ ":" ++
      padStart2 (toString ⌊jsMod t 60⌋) ++ ":" ++
      padStart2 (toString ⌊jsMod t 1 * 100⌋) := by
  have h60 := jsMod_bounds t 60 h (by norm_num)
  have h1 := jsMod_bounds t 1 h (by norm_num)
  refine ⟨?_, ?_, ?_, ⟨?_, ?_⟩, ⟨?_, ?_⟩, rfl⟩
  · unfold jsMod jsTrunc
    rw [if_pos (div_nonneg h (by norm_num))]
  · unfold jsMod jsTrunc
    rw [if_pos (by simpa using h), div_one, one_mul]
  · exact Int.floor_nonneg.mpr (div_nonneg h (by norm_num))
  · exact Int.floor_nonneg.mpr h60.1
  · have : ⌊jsMod t 60⌋ < 60 := Int.floor_lt.mpr (by exact_mod_cast h60.2)
    omega
  · exact Int.floor_nonneg.mpr (mul_nonneg h1.1 (by norm_num))
  · have hlt : jsMod t 1 * 100 < 100 := by nlinarith [h1.2]
    have : ⌊jsMod t 1 * 100⌋ < 100 := Int.floor_lt.mpr (by exact_mod_cast hlt)
    omega

/-- C9 witness: the shape statement instantiated at `t = 245/4` seconds
(1 min, 1 s, 25 hundredths). -/
theorem formatTime_shape_witness :
    (0 : ℚ) ≤ 245 / 4 ∧
    (jsMod (245 / 4) 60 = 245 / 4 - 60 * ((⌊(245 : ℚ) / 4 / 60⌋ : ℤ) : ℚ) ∧
     jsMod (245 / 4) 1 = 245 / 4 - ((⌊(245 : ℚ) / 4⌋ : ℤ) : ℚ) ∧
     0 ≤ ⌊(245 : ℚ) / 4 / 60⌋ ∧
     (0 ≤ ⌊jsMod (245 / 4) 60⌋ ∧ ⌊jsMod (245 / 4) 60⌋ ≤ 59) ∧
     (0 ≤ ⌊jsMod (245 / 4) 1 * 100⌋ ∧ ⌊jsMod (245 / 4) 1 * 100⌋ ≤ 99) ∧
     formatTime (245 / 4) =
       padStart2 (toString ⌊(245 : ℚ) / 4 / 60⌋) ++ ":" ++
       padStart2 (toString ⌊jsMod (245 / 4) 60⌋) ++ ":" ++
       padStart2 (toString ⌊jsMod (245 / 4) 1 * 100⌋)) :=
  ⟨by norm_num, formatTime_shape (245 / 4) (by norm_num)⟩

/-- Every message `mediaErrorMessage` can produce is nonempty. -/
theorem mediaErrorMessage_ne_empty (c : Option ℕ) :
    mediaErrorMessage c ≠ "" := by
  cases c with
  | none => decide
  | some c =>
    simp only [mediaErrorMessage]
    split_ifs <;> decide

/-- After any event step, the stored error message is unchanged, cleared,
one of the `handleError` messages, or a `play()` rejection message. -/
theorem step_audioError (s : AppState) (e : Ev) :
    (step s e).audioError = s.audioError ∨ (step s e).audioError = none ∨
    (∃ c, (step s e).audioError = some (mediaErrorMessage c)) ∨
    (∃ msg, (step s e).audioError = some ("Playback failed: " ++ msg)) := by
  cases e with
  | toggle o =>
    rcases ha : s.audio with _ | a
    · simp [step, togglePlay, ha]
    · by_cases ht : truthy s.audioError = true
      · simp [step, togglePlay, ha, ht]
      · cases o with
        | resolves =>
          by_cases hp : s.isPlaying <;> simp [step, togglePlay, ha, ht, hp]
        | rejects msg =>
          by_cases hp : s.isPlaying
          · simp [step, togglePlay, ha, ht, hp]
          · right; right; right
            exact ⟨msg, by simp [step, togglePlay, ha, ht, hp]⟩
  | timeUpdate t =>
    rcases ha : s.audio with _ | a <;> simp [step, handleTimeUpdate, ha]
  | loadedMetadata =>
    rcases ha : s.audio with _ | a
    · simp [step, handleLoadedMetadata, ha]
    · rcases hd : a.duration with _ | d <;>
        simp [step, handleLoadedMetadata, ha, hd]
  | ended => simp [step, handleEnded]
  | loadStart => simp [step, handleLoadStart]
  | mediaError code =>
    right; right; left
    exact ⟨code, by simp [step, handleError]⟩
  | setVolume v => simp [step, handleVolumeChange]
  | progressClick x l w =>
    rcases ha : s.audio with _ | a
    · simp [step, handleProgressBarClick, ha]
    · by_cases hd : s.duration = 0 <;>
        simp [step, handleProgressBarClick, ha, hd]
  | dismiss => simp [step, dismissError]
  | fullscreen => simp [step, toggleFullscreen]

/-- One event step preserves the nonemptiness of stored error messages. -/
theorem errOk_step (s : AppState) (e : Ev) (hs : ErrOk s) : ErrOk (step s e) := by
  intro m hm
  rcases step_audioError s e with h | h | ⟨c, h⟩ | ⟨msg, h⟩
  · exact hs m (h ▸ hm)
  · rw [h] at hm; exact absurd hm (by simp)
  · have h2 : mediaErrorMessage c = m := by
      rw [h] at hm; exact Option.some.inj hm
    exact h2 ▸ mediaErrorMessage_ne_empty c
  · have h2 : ("Playback failed: " ++ msg) = m := by
      rw [h] at hm; exact Option.some.inj hm
    exact h2 ▸ playbackMsg_ne_empty msg

/-- Every reachable state stores only nonempty error messages, so the JS
truthiness guard on `audioError` coincides with a null test. -/
theorem errOk_reachable {s : AppState} (hs : Reachable s) : ErrOk s := by
  induction hs with
  | init => intro m hm; simp [initState] at hm
  | step hs e ih => exact errOk_step _ e ih

/-- C5: in every reachable state with a non-null error message,
`togglePlay` is a no-op — it invokes no media control and returns the
state unchanged, so an error blocks playback until the message is
dismissed. -/
theorem togglePlay_error_noop (s : AppState) (m : String) (o : PlayOutcome)
    (hr : Reachable s) (he : s.audioError = some m) :
    togglePlay s o = (s, []) := by
  have hm : m ≠ "" := errOk_reachable hr m he
  have ht : truthy s.audioError = true := by
    rw [he]
    simpa [truthy] using hm
  cases ha : s.audio with
  | none => simp [togglePlay, ha]
  | some a => simp [togglePlay, ha, ht]

/-- C5 witness: after a network media error at the initial state,
`togglePlay` changes nothing and invokes nothing. -/
theorem togglePlay_error_noop_witness :
    togglePlay (step initState (Ev.mediaError (some 2))) PlayOutcome.resolves
      = (step initState (Ev.mediaError (some 2)), []) :=
  togglePlay_error_noop (step initState (Ev.mediaError (some 2)))
    "Network error - check file path" PlayOutcome.resolves
    (Reachable.step Reachable.init (Ev.mediaError (some 2))) (by rfl)

/-- C6 counterexample: a reachable state in which the play/pause flag
reports playing while the media element is paused — obtained from the
initial state by a `togglePlay` whose `play()` promise is rejected (e.g.
by the autoplay policy).  This refutes the claim that the flag never
reports playing while the element is paused. -/
theorem playflag_mismatch_after_rejected_play :
    Reachable (step initState (Ev.toggle (PlayOutcome.rejects "NotAllowedError"))) ∧
    (step initState (Ev.toggle (PlayOutcome.rejects "NotAllowedError"))).isPlaying
      = true ∧
    (step initState
        (Ev.toggle (PlayOutcome.rejects "NotAllowedError"))).audio.map
      AudioEl.paused = some true :=
  ⟨Reachable.step Reachable.init (Ev.toggle (PlayOutcome.rejects "NotAllowedError")),
   by rfl, by rfl⟩

/-- C6 (amended): the flag is cleared by the `ended` handler, and a
`togglePlay` whose media call completes leaves the flag equal to the
element's playing state in both directions; but after a rejected `play()`
the flag reports playing while the element's paused state is unchanged. -/
theorem playflag_tracks_element_except_rejected_play (s : AppState)
    (a : AudioEl) (ha : s.audio = some a) (he : s.audioError = none) :
    (handleEnded s).isPlaying = false ∧
    (s.isPlaying = true →
      (togglePlay s PlayOutcome.resolves).1.isPlaying = false ∧
      (togglePlay s PlayOutcome.resolves).1.audio.map AudioEl.paused
        = some true) ∧
    (s.isPlaying = false →
      (togglePlay s PlayOutcome.resolves).1.isPlaying = true ∧
      (togglePlay s PlayOutcome.resolves).1.audio.map AudioEl.paused
        = some false) ∧
    (∀ msg : String, s.isPlaying = false →
      (togglePlay s (PlayOutcome.rejects msg)).1.isPlaying = true ∧
      (togglePlay s (PlayOutcome.rejects msg)).1.audio.map AudioEl.paused
        = some a.paused) := by
  have ht : truthy s.audioError = false := by rw [he]; rfl
  refine ⟨by simp [handleEnded], ?_, ?_, ?_⟩
  · intro hp
    constructor <;> simp [togglePlay, ha, ht, hp]
  · intro hp
    constructor <;> simp [togglePlay, ha, ht, hp]
  · intro msg hp
    constructor <;> simp [togglePlay, ha, ht, hp]

/-- C6 (amended) witness: at the initial state (flag false, element
paused, no error) a rejected `play()` leaves the flag playing while the
element stays paused. -/
theorem playflag_tracks_element_except_rejected_play_witness :
    (togglePlay initState (PlayOutcome.rejects "blocked")).1.isPlaying = true ∧
    (togglePlay initState (PlayOutcome.rejects "blocked")).1.audio.map
      AudioEl.paused = some exampleAudio.paused :=
  (playflag_tracks_element_except_rejected_play initState exampleAudio rfl
    rfl).2.2.2 "blocked" rfl
